import Mathlib

/-
Shallow embedding of dmfigueroa/modbot, file src/token.rs, for checking the
natural-language specification against the code.

Modelling conventions:
- chrono NaiveDateTime instants are whole milliseconds since the epoch (Int).
  Subtraction of two instants yields a millisecond count, matching
  num_milliseconds; chrono Duration.seconds n adds n * 1000 milliseconds.
- std::time::Duration values built by the code (Duration::new secs 0) are
  modelled by their seconds field only, since the code always passes 0 nanos.
- Fallible effects are oracles passed as arguments: the outcome of the diesel
  store read, the outcome of the provider POST, the outcome of the
  update_credentials call inside auth_callback, the result awaited from the
  handoff channel. A Rust panic (expect / unwrap) is modelled as Except.error
  carrying the panic message; it is not a value returned to the caller.
- auth_callback returns, besides its HTTP response, the ordered trace of
  effects it performed on the store and the handoff channel (Event list).
- The provider JSON body enters auth_callback already parsed (the code panics
  on unparsable JSON before any behaviour the claims mention).
- The database table behind diesel is a list of rows; diesel first takes the
  head, filter/limit/load and insert/update follow their SQL meaning.
-/

namespace Modbot

/-- Token type of the oauth2 crate; the program only ever uses Bearer. -/
inductive TokenType
  | bearer
  | mac
deriving DecidableEq

/-- chrono NaiveDateTime modelled as whole milliseconds since the epoch. -/
abbrev NaiveDateTime := Int

/-- std::time::Duration as built by the code: Duration::new secs 0, so only
the seconds count is kept. -/
structure Duration where
  secs : Nat
deriving DecidableEq

/-- The TwitchToken struct of src/token.rs (lines 32..39). The refresh token
field is not optional in the code. Scope strings stand for oauth2 Scope. -/
structure TwitchToken where
  access_token : String
  token_type : TokenType
  expires_at : NaiveDateTime
  refresh_token : String
  scope : List String
deriving DecidableEq

/-- The fixed SCOPES list (src/token.rs lines 21..30), written as the
canonical string form of each twitch_api scope. -/
def SCOPES : List String :=
  ["chat:read", "chat:edit", "channel:moderate", "channel:manage:moderators",
   "moderator:manage:banned_users", "user:read:email"]

/-- SCOPES.to_vec().into_iter().map(Scope::from(to_string)).collect(), the
scope list stored in every token the program constructs. -/
def mappedScopes : List String := SCOPES.map (fun s => s)

/-- Token::expires_in of src/token.rs lines 50..60: if expires_at is strictly
after now, Duration::new((expires_at - now).num_milliseconds().unsigned_abs(), 0),
else None. Note the first argument of Duration::new is its seconds count while
the value passed is a millisecond count. -/
def TwitchToken.expires_in (t : TwitchToken) (now : NaiveDateTime) : Option Duration :=
  if t.expires_at > now then some { secs := (t.expires_at - now).natAbs } else none

/-- A row of the access table, with the columns src/token.rs reads and
writes: id, access_token, refresh_token, expires_at. -/
structure Access where
  id : Option Int
  access_token : String
  refresh_token : String
  expires_at : NaiveDateTime
deriving DecidableEq

/-- diesel::result::Error, collapsed to the two cases the claims
distinguish: NotFound (empty store) and any other database failure. -/
inductive DieselError
  | notFound
  | databaseError
deriving DecidableEq

/-- The TwitchToken built from a loaded row in the Ok branch of get_token
(src/token.rs lines 84..94): token type Bearer and the global scope list. -/
def tokenFromAccess (v : Access) : TwitchToken :=
  { access_token := v.access_token
  , token_type := TokenType.bearer
  , expires_at := v.expires_at
  , refresh_token := v.refresh_token
  , scope := mappedScopes }

/-- Which of its code paths get_token finished through: returning the stored
row, returning the token obtained by start_server, or panicking on unwrap. -/
inductive GetTokenOutcome
  | fromStore (t : TwitchToken)
  | fromFlow (t : TwitchToken)
  | panicked (msg : String)
deriving DecidableEq

/-- get_token of src/token.rs lines 71..98. The diesel read access.first and
the awaited start_server result are oracles. On Ok the stored row is turned
into a token and returned at once (the expiry check at lines 80..82 is
commented out in the source); on Err of any kind the code runs
start_server().await.unwrap(). -/
def get_token (credentials : Except DieselError Access)
    (flowResult : Except String TwitchToken) : GetTokenOutcome :=
  match credentials with
  | Except.ok value => GetTokenOutcome.fromStore (tokenFromAccess value)
  | Except.error _ =>
    match flowResult with
    | Except.ok t => GetTokenOutcome.fromFlow t
    | Except.error _ => GetTokenOutcome.panicked "called Result::unwrap on an Err value"

/-- The access table behind diesel, as a list of rows. -/
abbrev Table := List Access

/-- update_credentials of src/token.rs lines 104..140 over the table state:
not_exists is whether access.filter(id = 1).limit(1).load is empty; if so a
row (id = 1, access_token, expires_at, refresh_token) is inserted, otherwise
every id = 1 row has those three columns overwritten. The Ok value carries
the new table state. -/
def update_credentials (token : TwitchToken) (tbl : Table) : Except DieselError Table :=
  let not_exists : Bool := ((tbl.filter (fun r => r.id == some 1)).take 1).isEmpty
  if not_exists then
    Except.ok (tbl ++ [{ id := some 1
                       , access_token := token.access_token
                       , refresh_token := token.refresh_token
                       , expires_at := token.expires_at }])
  else
    Except.ok (tbl.map (fun r =>
      if r.id == some 1 then
        { r with access_token := token.access_token
               , refresh_token := token.refresh_token
               , expires_at := token.expires_at }
      else r))

/-- diesel access.first over the table: the first row, or Err(NotFound) when
the table is empty. -/
def loadAccess (tbl : Table) : Except DieselError Access :=
  match tbl with
  | [] => Except.error DieselError.notFound
  | r :: _ => Except.ok r

/-- A parsed JSON leaf as read by auth_callback; nested objects and arrays
are collapsed to JValue.other because the code only reads string and integer
leaves through as_str and as_i64. -/
inductive JValue
  | null
  | num (n : Int)
  | str (s : String)
  | other
deriving DecidableEq

/-- The parsed JSON body of the provider response: an association list of
top-level fields. -/
abbrev JObj := List (String × JValue)

/-- serde_json Value indexing: the first field with the key, Null if absent. -/
def jGet (data : JObj) (key : String) : JValue :=
  match data.find? (fun kv => kv.fst == key) with
  | some kv => kv.snd
  | none => JValue.null

/-- serde_json as_str. -/
def JValue.as_str : JValue → Option String
  | JValue.str s => some s
  | _ => none

/-- serde_json as_i64. -/
def JValue.as_i64 : JValue → Option Int
  | JValue.num n => some n
  | _ => none

/-- An effect performed by auth_callback, in order: a call to
update_credentials with a token, or a send of a token on the handoff
channel. -/
inductive Event
  | save (t : TwitchToken)
  | send (t : TwitchToken)
deriving DecidableEq

/-- A hyper HTTP response, status plus body text. Response::new(body) leaves
the status at its default 200. -/
structure HttpResponse where
  status : Nat
  body : String
deriving DecidableEq

/-- Outcome of the reqwest POST to the token endpoint: a transport failure,
or a response with a status code and a parsed JSON body. -/
inductive TransportResult
  | transportErr
  | ok (status : Nat) (data : JObj)
deriving DecidableEq

/-- reqwest StatusCode::is_success: 200 <= status < 300. -/
def isSuccessStatus (s : Nat) : Bool := decide (200 ≤ s ∧ s < 300)

/-- Body of the success page (src/token.rs line 200). -/
def successBody : String := "Authentication was successful! You can close this window now."

/-- Body of the failure page (src/token.rs line 205). -/
def failureBody : String := "OAuth2 could not be obtained"

/-- auth_callback of src/token.rs lines 160..208. Arguments: the current UTC
instant, the code query parameter (used only to build the POST form, which is
part of the transport oracle), the POST outcome, and the outcome of the
update_credentials call made on the success path. Returns the ordered effect
trace and either the HTTP response or a panic message (the expect and unwrap
calls of the source). Field reads happen in source order: access_token, then
refresh_token, then expires_in; update_credentials(token.clone()).unwrap()
runs before tx.send(token). -/
def auth_callback (now : NaiveDateTime) (code : Option String)
    (response : TransportResult) (saveResult : Except DieselError Unit) :
    List Event × Except String HttpResponse :=
  match response with
  | TransportResult.ok status data =>
    if isSuccessStatus status then
      match (jGet data "access_token").as_str with
      | none => ([], Except.error "access_token not found")
      | some a =>
        match (jGet data "refresh_token").as_str with
        | none => ([], Except.error "refresh_token not found")
        | some r =>
          match (jGet data "expires_in").as_i64 with
          | none => ([], Except.error "called Option::unwrap on a None value")
          | some n =>
            let token : TwitchToken :=
              { access_token := a
              , token_type := TokenType.bearer
              , expires_at := now + n * 1000
              , refresh_token := r
              , scope := mappedScopes }
            match saveResult with
            | Except.error _ =>
              ([Event.save token], Except.error "called Result::unwrap on an Err value")
            | Except.ok _ =>
              ([Event.save token, Event.send token],
                Except.ok { status := 200, body := successBody })
    else ([], Except.ok { status := 500, body := failureBody })
  | TransportResult.transportErr => ([], Except.ok { status := 500, body := failureBody })

/-- HTTP methods needed to state the routing of handle_request. -/
inductive Method
  | GET
  | POST
  | PUT
  | DELETE
deriving DecidableEq

/-- An incoming HTTP request: method, path and raw query string. -/
structure HttpRequest where
  method : Method
  path : String
  query : String
deriving DecidableEq

/-- One key=value pair as split by url::form_urlencoded::parse: the key ends
at the first equals sign; a pair with no equals sign has an empty value.
Percent decoding is omitted; no claim depends on it. -/
def parsePair (kv : String) : String × String :=
  match kv.splitOn "=" with
  | [] => ("", "")
  | [k] => (k, "")
  | k :: rest => (k, String.intercalate "=" rest)

/-- The query string split into pairs. -/
def queryParams (q : String) : List (String × String) :=
  if q.isEmpty then [] else (q.splitOn "&").map parsePair

/-- HashMap collect followed by get(key).cloned(): the last pair with the
key wins, None when absent. -/
def getParam (q : String) (key : String) : Option String :=
  (queryParams q).foldl (fun acc kv => if kv.fst == key then some kv.snd else acc) none

/-- handle_request of src/token.rs lines 253..267: GET /auth/callback parses
the query and calls auth_callback with the code parameter; every other
method or path gets Response::new("Not Found"), whose status is the hyper
default 200. -/
def handle_request (req : HttpRequest) (now : NaiveDateTime)
    (response : TransportResult) (saveResult : Except DieselError Unit) :
    List Event × Except String HttpResponse :=
  match req.method, req.path with
  | Method.GET, "/auth/callback" =>
      auth_callback now (getParam req.query "code") response saveResult
  | _, _ => ([], Except.ok { status := 200, body := "Not Found" })

/-- The row update_credentials writes for a token. -/
def accessOf (t : TwitchToken) : Access :=
  { id := some 1
  , access_token := t.access_token
  , refresh_token := t.refresh_token
  , expires_at := t.expires_at }

/-- The table after an update_credentials call (pure view; the call never
errors in the table model). -/
def applySave (t : TwitchToken) (tbl : Table) : Table :=
  match update_credentials t tbl with
  | Except.ok tbl2 => tbl2
  | Except.error _ => tbl

/-- The table produced by a sequence of saves starting from the empty
store. -/
def saveAll (ts : List TwitchToken) : Table :=
  ts.foldl (fun tb t => applySave t tb) []

/-- Replay one traced event against the table: saves write, sends do not
touch the store. -/
def applyEvent (tbl : Table) (e : Event) : Table :=
  match e with
  | Event.save t => applySave t tbl
  | Event.send _ => tbl

/-- Replay a whole effect trace against the table. -/
def applyEvents (es : List Event) (tbl : Table) : Table := es.foldl applyEvent tbl

/-- The tokens pushed onto the handoff channel by a trace, in order. -/
def sentTokens (es : List Event) : List TwitchToken :=
  es.filterMap (fun e => match e with | Event.send t => some t | _ => none)

/-- Store invariant maintained by update_credentials from the empty store:
at most one row, and every row sits in slot id = 1. -/
def tableOk (tbl : Table) : Prop :=
  tbl.length ≤ 1 ∧ ∀ r ∈ tbl, r.id = some 1

theorem tableOk_nil : tableOk [] := by
  constructor <;> simp [tableOk]

theorem applySave_eq_of_tableOk (t : TwitchToken) (tbl : Table) (h : tableOk tbl) :
    applySave t tbl = [accessOf t] := by
  rcases h with ⟨hlen, hid⟩
  cases tbl with
  | nil => simp [applySave, update_credentials, accessOf]
  | cons r rest =>
    cases rest with
    | nil =>
      have hr : r.id = some 1 := hid r (by simp)
      cases r with
      | mk rid rat rrt rea =>
        simp only [Access.id] at hr
        subst hr
        simp [applySave, update_credentials, accessOf]
    | cons r2 rest2 =>
      simp at hlen

theorem tableOk_accessOf (t : TwitchToken) : tableOk [accessOf t] := by
  constructor <;> simp [accessOf]

theorem tableOk_foldl (ts : List TwitchToken) (tbl : Table) (h : tableOk tbl) :
    tableOk (ts.foldl (fun tb t => applySave t tb) tbl) := by
  induction ts generalizing tbl with
  | nil => simpa using h
  | cons t ts ih =>
    simp only [List.foldl_cons]
    apply ih
    rw [applySave_eq_of_tableOk t tbl h]
    exact tableOk_accessOf t

theorem tableOk_saveAll (ts : List TwitchToken) : tableOk (saveAll ts) :=
  tableOk_foldl ts [] tableOk_nil

/-- Fixture: a stored row whose expiry, millisecond -1000, is strictly in the past relative to now = 0. -/
def staleRow : Access := { id := some 1, access_token := "staleTok", refresh_token := "staleRef", expires_at := -1000 }

/-- Fixture: a fresh token the interactive flow could deliver. -/
def freshTok : TwitchToken := { access_token := "freshTok", token_type := TokenType.bearer, expires_at := 99999999, refresh_token := "freshRef", scope := mappedScopes }

/-- Fixture: the token auth_callback builds at now = 0 from access_token tok1, refresh_token ref1, expires_in 10. -/
def tok1 : TwitchToken := { access_token := "tok1", token_type := TokenType.bearer, expires_at := 10000, refresh_token := "ref1", scope := mappedScopes }

/-- Fixture: the token auth_callback builds at time now from access_token abc, a given refresh token, expires_in 3600. -/
def abcToken (now : NaiveDateTime) (rt : String) : TwitchToken := { access_token := "abc", token_type := TokenType.bearer, expires_at := now + 3600 * 1000, refresh_token := rt, scope := mappedScopes }

/-- C1 counterexample: the store holds a credential whose expiry
(millisecond -1000) is strictly before now (millisecond 0) — indeed the
token model itself reports it expired — yet get_token returns exactly that
stale token from the cache check, even though the interactive flow was
available and would have produced a fresh token. -/
theorem C1_counterexample :
    ((-1000 : Int) < 0)
    ∧ (tokenFromAccess staleRow).expires_in 0 = none
    ∧ get_token (Except.ok staleRow) (Except.ok freshTok)
      = GetTokenOutcome.fromStore (tokenFromAccess staleRow) :=
  ⟨by decide, by decide, rfl⟩

/-- C1 (amended): whenever the store read succeeds, get_token returns the
stored token immediately, regardless of its expiry — the validity check is
commented out in the source — and only a failed store read proceeds past
the cache check to the interactive flow. -/
theorem C1_get_token_ignores_expiry (v : Access) (flowResult : Except String TwitchToken) :
    get_token (Except.ok v) flowResult = GetTokenOutcome.fromStore (tokenFromAccess v) := rfl

/-- C2 counterexample: an HTTP 200 provider response whose JSON body lacks
access_token makes auth_callback panic with the expect message — the Except
error models a Rust panic, not an error value returned to the caller — so
no protocol error is returned; the effect trace is empty, so nothing was
persisted (that half of the claim holds). -/
theorem C2_counterexample :
    auth_callback 0 (some "code")
      (TransportResult.ok 200 [("token_type", JValue.str "bearer"), ("expires_in", JValue.num 3600)])
      (Except.ok ())
      = ([], Except.error "access_token not found") := rfl

/-- C2 (amended): for every success-status provider response whose JSON body
lacks a string access_token field, auth_callback panics with the message
access_token not found instead of returning an error to its caller, and its
effect trace is empty: update_credentials is never called and nothing is
persisted. -/
theorem C2_missing_access_token (now : NaiveDateTime) (code : Option String)
    (st : Nat) (data : JObj) (saveResult : Except DieselError Unit)
    (hst : isSuccessStatus st = true)
    (hmiss : (jGet data "access_token").as_str = none) :
    auth_callback now code (TransportResult.ok st data) saveResult
      = ([], Except.error "access_token not found") := by
  simp [auth_callback, hst, hmiss]

theorem C2_witness :
    auth_callback 0 none (TransportResult.ok 204 [("refresh_token", JValue.str "x")])
      (Except.ok ())
      = ([], Except.error "access_token not found") :=
  C2_missing_access_token 0 none 204 [("refresh_token", JValue.str "x")]
    (Except.ok ()) (by decide) (by decide)

/-- C3 counterexample: at the exact input of the claim — a success response
with access_token abc and expires_in 3600 but no refresh_token — the code
does not construct a Token with an absent refresh token; it panics on the
expect for refresh_token, and no token is built, saved or sent. -/
theorem C3_counterexample :
    auth_callback 0 (some "c")
      (TransportResult.ok 200 [("access_token", JValue.str "abc"), ("expires_in", JValue.num 3600)])
      (Except.ok ())
      = ([], Except.error "refresh_token not found") := rfl

/-- C3 (amended): a successful exchange requires access_token, refresh_token
and expires_in all present in the body. When all are present with
access_token abc and expires_in 3600 at time T, the constructed token has
access token abc, the given refresh token, token type Bearer, the fixed
scope list, and absolute expiry exactly T plus 3600 seconds; it is saved and
sent. When refresh_token is absent the code panics on expect, and when
expires_in is absent it panics on unwrap — in neither case is a token with
an absent field produced. -/
theorem C3_token_fields :
    (∀ (now : NaiveDateTime) (code : Option String) (rt : String),
      auth_callback now code
        (TransportResult.ok 200
          [("access_token", JValue.str "abc"), ("refresh_token", JValue.str rt),
           ("expires_in", JValue.num 3600)])
        (Except.ok ())
        = ([Event.save (abcToken now rt), Event.send (abcToken now rt)],
           Except.ok { status := 200, body := successBody }))
    ∧ (∀ (now : NaiveDateTime) (code : Option String),
      auth_callback now code
        (TransportResult.ok 200
          [("access_token", JValue.str "abc"), ("expires_in", JValue.num 3600)])
        (Except.ok ())
        = ([], Except.error "refresh_token not found"))
    ∧ (∀ (now : NaiveDateTime) (code : Option String) (rt : String),
      auth_callback now code
        (TransportResult.ok 200
          [("access_token", JValue.str "abc"), ("refresh_token", JValue.str rt)])
        (Except.ok ())
        = ([], Except.error "called Option::unwrap on a None value")) :=
  ⟨fun _ _ _ => rfl, fun _ _ => rfl, fun _ _ _ => rfl⟩

/-- C4 counterexample: the provider returns a token successfully but the
update_credentials call fails; auth_callback panics on unwrap right after
the save attempt, the trace contains no send event, and the waiting
coordinator never receives the token — delivery is not performed. -/
theorem C4_counterexample :
    auth_callback 0 (some "c")
      (TransportResult.ok 200
        [("access_token", JValue.str "tok1"), ("refresh_token", JValue.str "ref1"),
         ("expires_in", JValue.num 10)])
      (Except.error DieselError.databaseError)
      = ([Event.save tok1], Except.error "called Result::unwrap on an Err value")
    ∧ sentTokens [Event.save tok1] = [] :=
  ⟨rfl, rfl⟩

/-- C4 (amended): whenever the update_credentials call inside auth_callback
fails, no token is ever pushed onto the handoff channel: the unwrap on the
save result panics before the send, for every possible provider response. -/
theorem C4_save_failure_no_send (now : NaiveDateTime) (code : Option String)
    (response : TransportResult) (e : DieselError) :
    sentTokens (auth_callback now code response (Except.error e)).1 = [] := by
  cases response with
  | transportErr => rfl
  | ok st data =>
    simp only [auth_callback]
    split
    · cases hA : (jGet data "access_token").as_str with
      | none => simp [hA, sentTokens]
      | some a =>
        cases hR : (jGet data "refresh_token").as_str with
        | none => simp [hA, hR, sentTokens]
        | some r =>
          cases hN : (jGet data "expires_in").as_i64 with
          | none => simp [hA, hR, hN, sentTokens]
          | some n => simp [hA, hR, hN, sentTokens]
    · rfl

/-- C5 counterexample: a storage-layer malfunction (databaseError) on the
store read is handled exactly like the empty store (notFound): get_token
silently proceeds to the interactive flow and returns its token; no
distinct error surfaces to the caller. -/
theorem C5_counterexample :
    get_token (Except.error DieselError.databaseError) (Except.ok freshTok)
      = GetTokenOutcome.fromFlow freshTok
    ∧ get_token (Except.error DieselError.notFound) (Except.ok freshTok)
      = GetTokenOutcome.fromFlow freshTok :=
  ⟨rfl, rfl⟩

/-- C5 (amended): every store read failure, storage malfunction and empty
store alike, falls through silently to the interactive authorization flow;
get_token never surfaces a read failure as a distinct error. -/
theorem C5_read_failure_falls_through (e : DieselError) (t : TwitchToken) :
    get_token (Except.error e) (Except.ok t) = GetTokenOutcome.fromFlow t := rfl

/-- C6: in every callback handling, a token reaches the handoff channel only
on the success path, where the effect trace is exactly the
update_credentials call followed by the send of the same token — persistence
is sequenced strictly before delivery — and replaying that persistence
against any store state satisfying the slot invariant leaves the store such
that a load returns exactly the delivered credential. -/
theorem C6_save_before_send (now : NaiveDateTime) (code : Option String)
    (response : TransportResult) (saveResult : Except DieselError Unit) (t : TwitchToken)
    (hsend : Event.send t ∈ (auth_callback now code response saveResult).1) :
    (auth_callback now code response saveResult).1 = [Event.save t, Event.send t]
    ∧ ∀ tbl : Table, tableOk tbl →
        loadAccess (applySave t tbl) = Except.ok (accessOf t)
        ∧ tokenFromAccess (accessOf t) = t := by
  cases response with
  | transportErr => simp [auth_callback] at hsend
  | ok st data =>
    by_cases hst : isSuccessStatus st = true
    · cases hA : (jGet data "access_token").as_str with
      | none => simp [auth_callback, hst, hA] at hsend
      | some a =>
        cases hR : (jGet data "refresh_token").as_str with
        | none => simp [auth_callback, hst, hA, hR] at hsend
        | some r =>
          cases hN : (jGet data "expires_in").as_i64 with
          | none => simp [auth_callback, hst, hA, hR, hN] at hsend
          | some n =>
            cases saveResult with
            | error e => simp [auth_callback, hst, hA, hR, hN] at hsend
            | ok u =>
              simp only [auth_callback, hst, hA, hR, hN, if_true] at hsend ⊢
              simp only [List.mem_cons, List.not_mem_nil, or_false] at hsend
              rcases hsend with hsend | hsend
              · exact Event.noConfusion hsend
              · injection hsend with ht
                subst ht
                refine ⟨rfl, ?_⟩
                intro tbl htbl
                rw [applySave_eq_of_tableOk _ tbl htbl]
                exact ⟨rfl, rfl⟩
    · simp only [auth_callback] at hsend
      rw [if_neg hst] at hsend
      simp at hsend

theorem C6_witness :
    (auth_callback 0 (some "valid123")
      (TransportResult.ok 200
        [("access_token", JValue.str "tok1"), ("refresh_token", JValue.str "ref1"),
         ("expires_in", JValue.num 10)])
      (Except.ok ())).1 = [Event.save tok1, Event.send tok1]
    ∧ loadAccess (applySave tok1 []) = Except.ok (accessOf tok1)
    ∧ tokenFromAccess (accessOf tok1) = tok1 := by
  refine ⟨(C6_save_before_send 0 (some "valid123")
      (TransportResult.ok 200
        [("access_token", JValue.str "tok1"), ("refresh_token", JValue.str "ref1"),
         ("expires_in", JValue.num 10)])
      (Except.ok ()) tok1 (by decide)).1, ?_, ?_⟩
  · exact ((C6_save_before_send 0 (some "valid123")
      (TransportResult.ok 200
        [("access_token", JValue.str "tok1"), ("refresh_token", JValue.str "ref1"),
         ("expires_in", JValue.num 10)])
      (Except.ok ()) tok1 (by decide)).2 [] (by constructor <;> simp [tableOk])).1
  · exact ((C6_save_before_send 0 (some "valid123")
      (TransportResult.ok 200
        [("access_token", JValue.str "tok1"), ("refresh_token", JValue.str "ref1"),
         ("expires_in", JValue.num 10)])
      (Except.ok ()) tok1 (by decide)).2 [] (by constructor <;> simp [tableOk])).2

/-- C7: when the token exchange fails — transport failure, or a provider
response whose status is not a success — auth_callback responds with HTTP
500 and the static failure body, performs no effect at all (nothing is
pushed onto the handoff channel), and replaying its effect trace leaves any
store state unchanged. -/
theorem C7_failure_response (now : NaiveDateTime) (code : Option String)
    (response : TransportResult) (saveResult : Except DieselError Unit)
    (hfail : response = TransportResult.transportErr
      ∨ ∃ st data, response = TransportResult.ok st data ∧ isSuccessStatus st = false) :
    auth_callback now code response saveResult
      = ([], Except.ok { status := 500, body := failureBody })
    ∧ ∀ tbl : Table, applyEvents (auth_callback now code response saveResult).1 tbl = tbl := by
  rcases hfail with hfail | ⟨st, data, hfail, hst⟩
  · subst hfail
    exact ⟨rfl, fun tbl => rfl⟩
  · subst hfail
    constructor
    · simp [auth_callback, hst]
    · intro tbl
      have htr : (auth_callback now code (TransportResult.ok st data) saveResult).1 = [] := by
        simp [auth_callback, hst]
      rw [htr]
      rfl

theorem C7_witness :
    auth_callback 0 (some "valid123") (TransportResult.ok 400 []) (Except.ok ())
      = ([], Except.ok { status := 500, body := failureBody })
    ∧ applyEvents (auth_callback 0 (some "valid123") (TransportResult.ok 400 []) (Except.ok ())).1 [] = [] := by
  refine ⟨(C7_failure_response 0 (some "valid123") (TransportResult.ok 400 []) (Except.ok ())
      (Or.inr ⟨400, [], rfl, by decide⟩)).1,
    (C7_failure_response 0 (some "valid123") (TransportResult.ok 400 []) (Except.ok ())
      (Or.inr ⟨400, [], rfl, by decide⟩)).2 []⟩

/-- C8 counterexample: scopes and token type are not persisted; the store
rebuilds every loaded credential with token type Bearer and the fixed scope
list. Saving a token whose scope list is empty and loading it back yields a
token whose scope list is the fixed one, so the loaded token is not
field-wise equal to the saved one. -/
theorem C8_counterexample :
    update_credentials { access_token := "a", token_type := TokenType.bearer, expires_at := 5, refresh_token := "r", scope := [] } []
      = Except.ok [{ id := some 1, access_token := "a", refresh_token := "r", expires_at := 5 }]
    ∧ loadAccess [{ id := some 1, access_token := "a", refresh_token := "r", expires_at := 5 }]
      = Except.ok { id := some 1, access_token := "a", refresh_token := "r", expires_at := 5 }
    ∧ tokenFromAccess { id := some 1, access_token := "a", refresh_token := "r", expires_at := 5 }
      ≠ { access_token := "a", token_type := TokenType.bearer, expires_at := 5, refresh_token := "r", scope := [] } := by
  refine ⟨rfl, rfl, by decide⟩

/-- C8 (amended): update_credentials has upsert semantics on the fixed slot
id = 1: starting from the empty store, any sequence of saves leaves at most
one row; a save never returns an error (in particular saving the same token
twice), and repeating a save changes nothing (no duplicate rows); after two
saves only the second tokens row is visible to a load; and a save followed
by a load returns the saved tokens row, whose rebuilt Token agrees with the
saved one on access token, refresh token and expiry, carries token type
Bearer and the fixed scope list — full field-wise equality holds exactly
when the saved token already has token type Bearer and the fixed scope
list, as every token this program constructs does. -/
theorem C8_upsert :
    (∀ ts : List TwitchToken, (saveAll ts).length ≤ 1)
    ∧ (∀ (t : TwitchToken) (tbl : Table), ∃ tbl2, update_credentials t tbl = Except.ok tbl2)
    ∧ (∀ (t : TwitchToken) (ts : List TwitchToken),
        applySave t (applySave t (saveAll ts)) = applySave t (saveAll ts))
    ∧ (∀ t1 t2 : TwitchToken, saveAll [t1, t2] = [accessOf t2])
    ∧ (∀ (t : TwitchToken) (ts : List TwitchToken),
        loadAccess (applySave t (saveAll ts)) = Except.ok (accessOf t))
    ∧ (∀ t : TwitchToken, t.token_type = TokenType.bearer → t.scope = mappedScopes →
        tokenFromAccess (accessOf t) = t) := by
  refine ⟨?_, ?_, ?_, ?_, ?_, ?_⟩
  · intro ts
    exact (tableOk_saveAll ts).1
  · intro t tbl
    simp only [update_credentials]
    by_cases h : (List.take 1 (List.filter (fun r => r.id == some 1) tbl)).isEmpty = true
    · rw [if_pos h]
      exact ⟨_, rfl⟩
    · rw [if_neg h]
      exact ⟨_, rfl⟩
  · intro t ts
    rw [applySave_eq_of_tableOk t (saveAll ts) (tableOk_saveAll ts),
        applySave_eq_of_tableOk t [accessOf t] (tableOk_accessOf t)]
  · intro t1 t2
    show applySave t2 (applySave t1 []) = [accessOf t2]
    rw [applySave_eq_of_tableOk t1 [] tableOk_nil,
        applySave_eq_of_tableOk t2 [accessOf t1] (tableOk_accessOf t1)]
  · intro t ts
    rw [applySave_eq_of_tableOk t (saveAll ts) (tableOk_saveAll ts)]
    rfl
  · intro t h1 h2
    cases t with
    | mk a ty e r sc =>
      simp only [TwitchToken.token_type] at h1
      simp only [TwitchToken.scope] at h2
      subst h1
      subst h2
      rfl

theorem C8_witness :
    tokenFromAccess (accessOf tok1) = tok1 :=
  C8_upsert.2.2.2.2.2 tok1 rfl rfl

/-- C9 (code bug evaluation): any request other than GET /auth/callback gets
Response::new with body Not Found, whose hyper default status is 200, not
the 404 the specification states; shown for a GET on another path and for a
POST on the callback path. -/
theorem C9_not_found_status_is_200 :
    handle_request { method := Method.GET, path := "/other", query := "" } 0
        TransportResult.transportErr (Except.ok ())
      = ([], Except.ok { status := 200, body := "Not Found" })
    ∧ handle_request { method := Method.POST, path := "/auth/callback", query := "code=x" } 0
        TransportResult.transportErr (Except.ok ())
      = ([], Except.ok { status := 200, body := "Not Found" })
    ∧ (200 : Nat) ≠ 404 :=
  ⟨rfl, rfl, by decide⟩

/-- C10 (code bug evaluation): expires_in passes the remaining millisecond
count as the seconds argument of Duration::new. For a token expiring 2000
milliseconds (2 seconds) after now, it reports a Duration of 2000 seconds,
one thousand times the remaining time; the None half of the claim does hold
at and past the expiry instant. -/
theorem C10_expires_in_millis_as_seconds :
    TwitchToken.expires_in { access_token := "a", token_type := TokenType.bearer, expires_at := 2000, refresh_token := "r", scope := mappedScopes } 0
      = some { secs := 2000 }
    ∧ TwitchToken.expires_in { access_token := "a", token_type := TokenType.bearer, expires_at := 2000, refresh_token := "r", scope := mappedScopes } 2000
      = none
    ∧ TwitchToken.expires_in { access_token := "a", token_type := TokenType.bearer, expires_at := 2000, refresh_token := "r", scope := mappedScopes } 2500
      = none
    ∧ (2000 : Nat) ≠ 2 := by
  refine ⟨by decide, by decide, by decide, by decide⟩

end Modbot
